import Mathlib

/-!
Shallow embedding of the watchtower-logger offender pipeline
(src/cogs/parser.py and src/cogs/watchtower_logger.py).

Python strings are Lean `String`s; Python `None`-able values are `Option`s;
database cursors and the user-fetch capability are modelled as functions
returning `Except Unit _` (`.error ()` models a raised exception, which the
source catches locally); Python truthiness of strings/ints is modelled
explicitly (`""`, `0` and `None` are falsy).
-/

namespace Watchtower

/-- Python `\s` character class (ASCII part), as used by `str.strip` and `re`. -/
def pyIsSpace (c : Char) : Bool :=
  c = ' ' ∨ c = '\t' ∨ c = '\n' ∨ c = '\r' ∨ c = '\x0b' ∨ c = '\x0c'

/-- Python `\d` character class (ASCII part). -/
def pyIsDigit (c : Char) : Bool := '0' ≤ c ∧ c ≤ '9'

/-- `str.strip()` on a character list. -/
def pyStripList (cs : List Char) : List Char :=
  ((cs.dropWhile pyIsSpace).reverse.dropWhile pyIsSpace).reverse

/-- Python `s.strip()`. -/
def pyStrip (s : String) : String := ⟨pyStripList s.data⟩

/-- Python `re.sub(r"\D", "", s)`: keep only digit characters. -/
def pyStripNonDigits (s : String) : String := ⟨s.data.filter pyIsDigit⟩

/-- Python `s.isdigit()`: nonempty and all digits. -/
def pyIsDigitStr (s : String) : Bool := s ≠ "" ∧ s.data.all pyIsDigit

/-- Numeric value of a digit run (Python `int(s)`). -/
def digitsToNat (cs : List Char) : Nat :=
  cs.foldl (fun n c => 10 * n + (c.toNat - '0'.toNat)) 0

/-- Python truthiness of an optional string (`None` and `""` are falsy). -/
def pyTruthyStr : Option String → Bool
  | none => false
  | some s => s ≠ ""

/-- Python truthiness of an optional int (`None` and `0` are falsy). -/
def pyTruthyInt : Option Int → Bool
  | none => false
  | some n => n ≠ 0

/-- Python `x or d` for an optional/possibly-empty string `x` and default `d`. -/
def pyStrOr : Option String → String → String
  | some s, d => if s = "" then d else s
  | none, d => d

/-! ## Line parser (`parse_offender_line`, identical in both source files) -/

structure OffenseLine where
  identifier : String
  points : String
  rule : String
  mod_notes : String
  notes : String
deriving Repr, DecidableEq

/-- Split a character list on every occurrence of `sep` (Python `str.split`
with a one-character separator). -/
def splitChar (sep : Char) : List Char → List (List Char)
  | [] => [[]]
  | c :: cs =>
    if c = sep then [] :: splitChar sep cs
    else
      match splitChar sep cs with
      | [] => [[c]]
      | h :: t => (c :: h) :: t

/-- Rejoin segments with `|` (the tail the two-split leaves intact). -/
def joinPipe : List (List Char) → List Char
  | [] => []
  | [l] => l
  | l :: ls => l ++ '|' :: joinPipe ls

/-- Python `line.split("|", 2)`: at most two splits, up to three segments
(the remainder keeps its inner pipes). -/
def splitPipe2 (line : String) : List String :=
  match splitChar '|' line.data with
  | [] => [line]
  | [a] => [⟨a⟩]
  | [a, b] => [⟨a⟩, ⟨b⟩]
  | a :: b :: rest => [⟨a⟩, ⟨b⟩, ⟨joinPipe rest⟩]

/-- Tail of the mention alternative after `<@` and the optional `!`: one or
more digits then `>`; the matched token is rebuilt from its pieces. -/
def mentionTail (bang r2 : List Char) : Option (List Char × List Char) :=
  match r2.dropWhile pyIsDigit with
  | '>' :: r4 =>
    if r2.takeWhile pyIsDigit = [] then none
    else some ('<' :: '@' :: bang ++ r2.takeWhile pyIsDigit ++ ['>'], r4)
  | _ => none

/-- Match the identifier alternative `<@!?\d+>|\d{1,30}` of the left-segment
regex, after the leading `\s*`. Returns the matched token characters and the
remaining characters. A string whose first two characters are `<@` must
complete the mention form (a bare `<` never starts a digit run); otherwise a
digit run is matched greedily up to 30 characters. -/
def matchIdent (cs : List Char) : Option (List Char × List Char) :=
  if (cs.dropWhile pyIsSpace).take 2 = ['<', '@'] then
    if ((cs.dropWhile pyIsSpace).drop 2).take 1 = ['!'] then
      mentionTail ['!'] (((cs.dropWhile pyIsSpace).drop 2).drop 1)
    else
      mentionTail [] ((cs.dropWhile pyIsSpace).drop 2)
  else
    if (cs.dropWhile pyIsSpace).takeWhile pyIsDigit = [] then none
    else some (((cs.dropWhile pyIsSpace).takeWhile pyIsDigit).take 30,
      ((cs.dropWhile pyIsSpace).takeWhile pyIsDigit).drop 30
        ++ (cs.dropWhile pyIsSpace).dropWhile pyIsDigit)

/-- Match `\s*(?P<points>\d+)?\s*(?P<rule>.*)?$` against the characters after
the identifier. `.*` stops at a newline and `$` accepts only the end of the
string or a single trailing newline, so the match fails when a newline is
followed by further text. Returns the points group (none when absent) and the
rule group. -/
def matchTail (rest : List Char) : Option (Option (List Char) × List Char) :=
  if (((rest.dropWhile pyIsSpace).dropWhile pyIsDigit).dropWhile pyIsSpace).dropWhile
        (fun c => c ≠ '\n') = []
    ∨ (((rest.dropWhile pyIsSpace).dropWhile pyIsDigit).dropWhile pyIsSpace).dropWhile
        (fun c => c ≠ '\n') = ['\n'] then
    some ((if (rest.dropWhile pyIsSpace).takeWhile pyIsDigit = [] then none
           else some ((rest.dropWhile pyIsSpace).takeWhile pyIsDigit)),
      (((rest.dropWhile pyIsSpace).dropWhile pyIsDigit).dropWhile pyIsSpace).takeWhile
        (fun c => c ≠ '\n'))
  else none

/-- `parse_offender_line` (src/cogs/parser.py lines 13-52):
split on `|` (max 2), strip each part, then match
`^\s*(?P<identifier><@!?\d+>|\d{1,30})\s*(?P<points>\d+)?\s*(?P<rule>.*)?$`
against the left part; points default to `"0"`, rule is stripped. -/
def parse_offender_line (line : String) : Option OffenseLine :=
  if pyStrip line = "" then none
  else
    match matchIdent (((splitPipe2 line).map pyStrip).headD "").data with
    | none => none
    | some (ident, rest) =>
      match matchTail rest with
      | none => none
      | some (pts, rule) =>
        some { identifier := ⟨ident⟩
             , points := match pts with | none => "0" | some ds => ⟨ds⟩
             , rule := ⟨pyStripList rule⟩
             , mod_notes := (((splitPipe2 line).map pyStrip).get? 1).getD ""
             , notes := (((splitPipe2 line).map pyStrip).get? 2).getD "" }

/-- First `|`-segment of a line, stripped (the text the left-side regex runs on). -/
def leftOf (line : String) : String := pyStrip ((splitPipe2 line).headD "")

/-! ## Evidence collector (`WatchtowerLogger.collect_and_upload_attachments`,
src/cogs/watchtower_logger.py lines 357-403)

The environment's responses for one attachment (download HTTP status, catbox
upload result, `att.to_file()` success) are carried on the attachment record,
so the collector is a pure function of the ticket history. -/

structure Attachment where
  filename : String
  size : Nat
  downloadOk : Bool
  uploadUrl : Option String
  toFileOk : Bool
deriving Repr, DecidableEq

structure Message where
  atts : List Attachment
deriving Repr, DecidableEq

structure Entry where
  filename : String
  url : Option String
  fallback : Bool
deriving Repr, DecidableEq

def MiB : Nat := 1024 * 1024

/-- Per-attachment processing of the collector loop body: skip attachments of
at least 250 MiB, skip failed downloads, record the upload url, and on a
failed upload attach the file directly only when `att.size` is truthy (so
nonzero) and below 25 MiB and `att.to_file()` succeeds. Each path appends
exactly one entry. -/
def processAttachment (a : Attachment) : Entry :=
  if 250 * MiB ≤ a.size then { filename := a.filename, url := none, fallback := false }
  else if ¬ a.downloadOk then { filename := a.filename, url := none, fallback := false }
  else
    match a.uploadUrl with
    | some u => { filename := a.filename, url := some u, fallback := false }
    | none =>
      if a.size ≠ 0 ∧ a.size < 25 * MiB then
        { filename := a.filename, url := none, fallback := a.toFileOk }
      else { filename := a.filename, url := none, fallback := false }

/-- `collect_and_upload_attachments`. `history` is the ticket's message list
in chronological (oldest-first) order; the code iterates it with
`oldest_first=False`, i.e. newest message first, and processes each message's
attachments in order. -/
def collect_and_upload_attachments (history : List Message) : List Entry :=
  history.reverse.flatMap (fun m => m.atts.map processAttachment)

/-! ## Scoring client (`WatchtowerLogger.apply_points`,
src/cogs/watchtower_logger.py lines 478-520)

The remote service's behaviour is an oracle giving the outcome of each
attempt. The result records the sleeps performed (`2 ** attempt` before each
retry) and the number of attempts actually made. -/

inductive ApiOutcome where
  /-- HTTP 200; the payload is the parsed JSON body, or `none` when the body
  is not JSON. -/
  | ok (body : Option String)
  /-- A non-200 HTTP status. -/
  | status (code : Nat)
  /-- A network exception. -/
  | netError
deriving Repr, DecidableEq

structure ApplyResult where
  success : Bool
  response : Option String
  sleeps : List Nat
  attemptsMade : Nat
deriving Repr, DecidableEq

/-- Transient statuses retried by the client. -/
def transient (c : Nat) : Bool := c = 429 ∨ c = 502 ∨ c = 503 ∨ c = 504

/-- The `for attempt in range(3)` loop of `apply_points`. `fuel` is the number
of loop iterations left, `attempt` the current index, `sleeps` the backoff
waits already performed. -/
def applyLoop (o : Nat → ApiOutcome) : Nat → Nat → List Nat → ApplyResult
  | 0, attempt, sleeps => ⟨false, none, sleeps, attempt⟩
  | fuel + 1, attempt, sleeps =>
    match o attempt with
    | .ok body => ⟨true, body, sleeps, attempt + 1⟩
    | .status c =>
      if transient c then applyLoop o fuel (attempt + 1) (sleeps ++ [2 ^ attempt])
      else ⟨false, none, sleeps, attempt + 1⟩
    | .netError => applyLoop o fuel (attempt + 1) (sleeps ++ [2 ^ attempt])

/-- `apply_points`: the short-circuits test `points <= 0 or not steamid or
steamid == "Unknown"` and the credential test `not POINTS_API_TOKEN or
POINTS_API_TOKEN == "CHANGE_ME"`; otherwise up to three attempts are made.
(In the count comparison `row and row[0]`-style truthiness is not involved
here; 200-with-JSON yields the parsed body.) -/
def apply_points (steamid : String) (points : Int) (token : String)
    (o : Nat → ApiOutcome) : ApplyResult :=
  if points ≤ 0 ∨ steamid = "" ∨ steamid = "Unknown" then ⟨true, none, [], 0⟩
  else if token = "" ∨ token = "CHANGE_ME" then ⟨false, none, [], 0⟩
  else applyLoop o 3 0 []

/-! ## Identity resolver (`resolve_offender` in src/cogs/parser.py lines
55-238 and src/cogs/watchtower_logger.py lines 110-274)

The database cursor is modelled as one `Except`-returning function per SQL
query issued by the source; `.error ()` models a raised exception (caught
locally by the source). The user-fetch capability returns a duck-typed user
object whose `display_name` / `name` attributes may each be absent
(outer `none`) or present with value `None` (inner `none`). -/

/-- Duck-typed user object returned by `fetch_user`: each field is
`none` when the attribute is missing, `some none` when it is `None`,
`some (some s)` when it is the string `s`. -/
structure DuckUser where
  display_name : Option (Option String)
  name : Option (Option String)
deriving Repr, DecidableEq

abbrev FetchUser := Int → Except Unit DuckUser

/-- `getattr(u, attr, dflt)` where the attribute value and default are
`None`-able strings. -/
def pyGetAttr (attr : Option (Option String)) (dflt : Option String) : Option String :=
  attr.getD dflt

/-- Python `a or b` on `None`-able strings. -/
def pyOrOpt (a b : Option String) : Option String :=
  if pyTruthyStr a then a else b

/-- parser.py name expression:
`getattr(user, "display_name", None) or getattr(user, "name", "Unresolved User")`. -/
def parserNameExpr (u : DuckUser) : Option String :=
  pyOrOpt (pyGetAttr u.display_name none) (pyGetAttr u.name (some "Unresolved User"))

/-- watchtower_logger.py `_safe_fetch_user_name` success expression:
`getattr(user, "display_name", None) or getattr(user, "name", "Unknown")`. -/
def cogNameExpr (u : DuckUser) : Option String :=
  pyOrOpt (pyGetAttr u.display_name none) (pyGetAttr u.name (some "Unknown"))

/-- parser.py name lookup at a call site: skipped when `fetch_user` is absent
(keeping the current value), `"Unresolved User"` when the fetch raises. -/
def parserFetchName (fetch : Option FetchUser) (cur : Option String) (d : Int) : Option String :=
  match fetch with
  | none => cur
  | some f =>
    match f d with
    | .ok u => parserNameExpr u
    | .error _ => some "Unresolved User"

/-- watchtower_logger.py `_safe_fetch_user_name`: always called (the bot is
always available), `"Unresolved User"` when the fetch raises. -/
def cogFetchName (f : FetchUser) (_cur : Option String) (d : Int) : Option String :=
  match f d with
  | .ok u => cogNameExpr u
  | .error _ => some "Unresolved User"

/-- Database interface: one function per SQL query issued by
`resolve_offender`. Row tuples hold `None`-able column values. -/
structure Db where
  /-- `SELECT steamid, ign FROM users WHERE discordid=?` + `fetchone`. -/
  usersByDiscordId : Int → Except Unit (Option (Option String × Option String))
  /-- `SELECT discordid, ign FROM users WHERE steamid=?` + `fetchone`. -/
  usersBySteamId : String → Except Unit (Option (Option Int × Option String))
  /-- `SELECT COUNT(*) FROM infractions WHERE steamid=? AND reason=?`. -/
  countInfSteamReason : String → String → Except Unit Int
  /-- `SELECT COUNT(*) FROM infractions WHERE discordid=? AND reason=?`. -/
  countInfDiscordReason : Int → String → Except Unit Int
  /-- `SELECT COUNT(*) FROM infractions WHERE steamid=?`. -/
  countInfSteam : String → Except Unit Int
  /-- `SELECT COUNT(*) FROM infractions WHERE discordid=?`. -/
  countInfDiscord : Int → Except Unit Int
  /-- `SELECT total_points FROM users WHERE steamid=?` + `fetchone`. -/
  pointsBySteam : String → Except Unit (Option (Option Int))
  /-- `SELECT total_points FROM users WHERE discordid=?` + `fetchone`. -/
  pointsByDiscord : Int → Except Unit (Option (Option Int))

/-- `re.match(r"<@!?(?P<id>\d+)>$", s)`: full mention form, returning the
numeric id. (`s` is always pre-stripped by the caller, so the trailing-newline
allowance of `$` cannot fire.) -/
def parseMention (s : String) : Option Int :=
  match s.data with
  | '<' :: '@' :: r1 =>
    let r2 := match r1 with
      | '!' :: r => r
      | _ => r1
    let ds := r2.takeWhile pyIsDigit
    if ds = [] then none
    else if r2.dropWhile pyIsDigit = ['>'] then some (digitsToNat ds : Nat) else none
  | _ => none

/-- Mutable local state of the identity part of `resolve_offender`
(`steamid`, `discord_id`, `discord_name`, `ign` before the repeat-detection
block and the last-resort fallback). `discord_name` is an `Option` because
the Python name expression can evaluate to `None`. -/
structure Ident where
  steamid : Option String
  discord_id : Option Int
  discord_name : Option String
  ign : String
deriving Repr, DecidableEq

/-- Apply a `(steamid, ign)` row from `users` to the defaults: each column is
adopted only when truthy. -/
def updFromUserRowSI (row : Option (Option String × Option String)) :
    Option String × String :=
  match row with
  | some (stc, ignc) =>
    ( if pyTruthyStr stc then stc else none
    , match ignc with
      | some g => if g = "" then "Unknown" else g
      | none => "Unknown" )
  | none => (none, "Unknown")

/-- The `ign` update from a `(discordid, ign)` row. -/
def ignFromRow (ignc : Option String) : String :=
  match ignc with
  | some g => if g = "" then "Unknown" else g
  | none => "Unknown"

/-- Identity phase of `resolve_offender` (everything before the
repeat-detection block), parameterised by the name-lookup wrapper `nameOf`
(which receives the current `discord_name` and the id to look up). The four
branches follow the source: mention form; all-digits of at least
`minLen` (treated as a steamid); shorter all-digits (treated as a discord
id — note the id assignment precedes the query, so it survives a query
error, while the name lookup is skipped); non-numeric (digits stripped and
treated as a steamid when long enough). -/
def identityPhase (nameOf : Option String → Int → Option String) (db : Db)
    (identifier : String) (minLen : Nat) : Ident :=
  let idStr := pyStrip identifier
  match parseMention idStr with
  | some d =>
    let (st, ign) :=
      match db.usersByDiscordId d with
      | .ok row => updFromUserRowSI row
      | .error _ => (none, "Unknown")
    { steamid := st, discord_id := some d, discord_name := nameOf (some "Unknown") d, ign := ign }
  | none =>
    if pyIsDigitStr idStr then
      if minLen ≤ idStr.length then
        match db.usersBySteamId idStr with
        | .ok (some (dc, ignc)) =>
          let ign := ignFromRow ignc
          match dc with
          | some dv =>
            if dv ≠ 0 then
              { steamid := some idStr, discord_id := some dv
              , discord_name := nameOf (some "Unknown") dv, ign := ign }
            else
              { steamid := some idStr, discord_id := none
              , discord_name := some "Unknown", ign := ign }
          | none =>
            { steamid := some idStr, discord_id := none
            , discord_name := some "Unknown", ign := ign }
        | _ =>
          { steamid := some idStr, discord_id := none
          , discord_name := some "Unknown", ign := "Unknown" }
      else
        let d : Int := (digitsToNat idStr.data : Nat)
        match db.usersByDiscordId d with
        | .ok row =>
          let (st, ign) := updFromUserRowSI row
          { steamid := st, discord_id := some d
          , discord_name := nameOf (some "Unknown") d, ign := ign }
        | .error _ =>
          { steamid := none, discord_id := some d
          , discord_name := some "Unknown", ign := "Unknown" }
    else
      let ds := pyStripNonDigits idStr
      if ds ≠ "" ∧ minLen ≤ ds.length then
        match db.usersBySteamId ds with
        | .ok (some (dc, ignc)) =>
          let ign := ignFromRow ignc
          match dc with
          | some dv =>
            if dv ≠ 0 then
              { steamid := some ds, discord_id := some dv
              , discord_name := nameOf (some "Unknown") dv, ign := ign }
            else
              { steamid := some ds, discord_id := none
              , discord_name := some "Unknown", ign := ign }
          | none =>
            { steamid := some ds, discord_id := none
            , discord_name := some "Unknown", ign := ign }
        | _ =>
          { steamid := some ds, discord_id := none
          , discord_name := some "Unknown", ign := "Unknown" }
      else
        { steamid := none, discord_id := none
        , discord_name := some "Unknown", ign := "Unknown" }

/-- Repeat detection keyed by discord id, rule branch
(`elif discord_id:` then `COUNT(*) ... WHERE discordid=? AND reason=?`;
`row and row[0] and int(row[0]) > 0` is equivalent to `0 < n`). -/
def detectByRuleD (db : Db) (rc : String) (d : Option Int) : Bool :=
  match d with
  | some dv =>
    if dv ≠ 0 then
      match db.countInfDiscordReason dv rc with
      | .ok n => decide (0 < n)
      | .error _ => false
    else false
  | none => false

/-- Repeat detection, rule branch (`if steamid and steamid != "Unknown":`). -/
def detectByRule (db : Db) (rc : String) (st : Option String) (d : Option Int) : Bool :=
  match st with
  | some s =>
    if s ≠ "" ∧ s ≠ "Unknown" then
      match db.countInfSteamReason s rc with
      | .ok n => decide (0 < n)
      | .error _ => false
    else detectByRuleD db rc d
  | none => detectByRuleD db rc d

/-- Generic repeat detection keyed by discord id (no rule): any prior
infraction, else `total_points > 0`; both queries share one `try`, so a
failure on the first skips the second. -/
def detectGenericD (db : Db) (d : Option Int) : Bool :=
  match d with
  | some dv =>
    if dv ≠ 0 then
      match db.countInfDiscord dv with
      | .error _ => false
      | .ok n =>
        if 0 < n then true
        else
          match db.pointsByDiscord dv with
          | .ok (some (some p)) => decide (0 < p)
          | _ => false
    else false
  | none => false

/-- Generic repeat detection (no rule), steamid preferred. -/
def detectGeneric (db : Db) (st : Option String) (d : Option Int) : Bool :=
  match st with
  | some s =>
    if s ≠ "" ∧ s ≠ "Unknown" then
      match db.countInfSteam s with
      | .error _ => false
      | .ok n =>
        if 0 < n then true
        else
          match db.pointsBySteam s with
          | .ok (some (some p)) => decide (0 < p)
          | _ => false
    else detectGenericD db d
  | none => detectGenericD db d

/-- Repeat-detection block of `resolve_offender`:
`if rule and rule.strip():` selects the per-rule branch with
`rule_check = rule.strip()`, otherwise the generic branch. -/
def detectRepeat (db : Db) (rule : Option String) (st : Option String) (d : Option Int) : Bool :=
  match rule with
  | some r =>
    if r ≠ "" ∧ pyStrip r ≠ "" then detectByRule db (pyStrip r) st d
    else detectGeneric db st d
  | none => detectGeneric db st d

/-- Last-resort fallback (`if not steamid:` after detection): strip non-digits
from the *original* identifier and adopt the digits when long enough. -/
def lastResortSteam (identifier : String) (minLen : Nat) (st : Option String) : Option String :=
  if pyTruthyStr st then st
  else
    let ds := pyStripNonDigits identifier
    if ds ≠ "" ∧ minLen ≤ ds.length then some ds else st

/-- Resolved offender record returned by `resolve_offender`. -/
structure Offender where
  steamid : String
  discord_id : Option Int
  discord_name : String
  ign : String
  repeat_offender : Bool
deriving Repr, DecidableEq

/-- `resolve_offender`, generic in the name-lookup wrapper: identity phase,
then repeat detection (using the identity known at that point), then the
last-resort steamid fallback, then the final defaulting
(`steamid or "Unknown"` etc.). -/
def resolveGen (nameOf : Option String → Int → Option String) (db : Db)
    (identifier : String) (rule : Option String) (minLen : Nat) : Offender :=
  let i := identityPhase nameOf db identifier minLen
  let rep := detectRepeat db rule i.steamid i.discord_id
  let st := lastResortSteam identifier minLen i.steamid
  { steamid := pyStrOr st "Unknown"
  , discord_id := i.discord_id
  , discord_name := pyStrOr i.discord_name "Unknown"
  , ign := if i.ign = "" then "Unknown" else i.ign
  , repeat_offender := rep }

namespace StandaloneResolve

/-- `resolve_offender` from src/cogs/parser.py (optional `fetch_user`). -/
def resolve_offender (identifier : String) (db : Db) (fetch_user : Option FetchUser)
    (rule : Option String) (min_steamid_len : Nat) : Offender :=
  resolveGen (parserFetchName fetch_user) db identifier rule min_steamid_len

end StandaloneResolve

namespace Cog

/-- `resolve_offender` from src/cogs/watchtower_logger.py (the bot's
`_safe_fetch_user_name` is always used). -/
def resolve_offender (fetch : FetchUser) (identifier : String) (db : Db)
    (rule : Option String) (min_steamid_len : Nat) : Offender :=
  resolveGen (cogFetchName fetch) db identifier rule min_steamid_len

end Cog

/-! ## Concrete store semantics

A concrete identity/infraction store with the SQLite semantics of the queries
the source issues (`fetchone` returns the first matching row; `col=?` never
matches a NULL column; `COUNT(*)` counts matching rows), used for the claims
that relate resolution to store contents. -/

structure UserRow where
  steamid : Option String
  discordid : Option Int
  ign : Option String
  total_points : Option Int
deriving Repr, DecidableEq

structure Infraction where
  steamid : Option String
  discordid : Option Int
  reason : String
  timestamp : Int
deriving Repr, DecidableEq

structure Store where
  users : List UserRow
  infractions : List Infraction
deriving Repr, DecidableEq

def Store.toDb (st : Store) : Db where
  usersByDiscordId d :=
    .ok ((st.users.find? (fun u => u.discordid = some d)).map (fun u => (u.steamid, u.ign)))
  usersBySteamId s :=
    .ok ((st.users.find? (fun u => u.steamid = some s)).map (fun u => (u.discordid, u.ign)))
  countInfSteamReason s r :=
    .ok ((st.infractions.filter (fun i => i.steamid = some s ∧ i.reason = r)).length : Nat)
  countInfDiscordReason d r :=
    .ok ((st.infractions.filter (fun i => i.discordid = some d ∧ i.reason = r)).length : Nat)
  countInfSteam s :=
    .ok ((st.infractions.filter (fun i => i.steamid = some s)).length : Nat)
  countInfDiscord d :=
    .ok ((st.infractions.filter (fun i => i.discordid = some d)).length : Nat)
  pointsBySteam s :=
    .ok ((st.users.find? (fun u => u.steamid = some s)).map (fun u => u.total_points))
  pointsByDiscord d :=
    .ok ((st.users.find? (fun u => u.discordid = some d)).map (fun u => u.total_points))

/-- `WatchtowerLogger._record_infraction` (src/cogs/watchtower_logger.py
lines 524-540), success path: append one row to `infractions`. -/
def recordInfraction (st : Store) (steamid : Option String) (discord_id : Option Int)
    (reason : String) (ts : Int) : Store :=
  { st with infractions := st.infractions ++ [⟨steamid, discord_id, reason, ts⟩] }

/-- A database whose every query raises. -/
def failDb : Db where
  usersByDiscordId _ := .error ()
  usersBySteamId _ := .error ()
  countInfSteamReason _ _ := .error ()
  countInfDiscordReason _ _ := .error ()
  countInfSteam _ := .error ()
  countInfDiscord _ := .error ()
  pointsBySteam _ := .error ()
  pointsByDiscord _ := .error ()

/-- A user-fetch capability whose every call raises. -/
def failFetch : FetchUser := fun _ => .error ()

/-- The detection key actually used by the repeat-detection block, given the
identity known at that point: the steamid when truthy and not `"Unknown"`,
else the discord id when truthy, else nothing. -/
def queryKeyD : Option Int → Option (String ⊕ Int)
  | some dv => if dv ≠ 0 then some (Sum.inr dv) else none
  | none => none

def queryKey : Option String → Option Int → Option (String ⊕ Int)
  | some s, d => if s ≠ "" ∧ s ≠ "Unknown" then some (Sum.inl s) else queryKeyD d
  | none, d => queryKeyD d

/-- An infraction row matches a detection key and rule text. -/
def infMatches (key : String ⊕ Int) (rc : String) (inf : Infraction) : Prop :=
  match key with
  | .inl s => inf.steamid = some s ∧ inf.reason = rc
  | .inr dv => inf.discordid = some dv ∧ inf.reason = rc

instance (key : String ⊕ Int) (rc : String) (inf : Infraction) :
    Decidable (infMatches key rc inf) := by
  unfold infMatches
  cases key <;> infer_instance

/-- Two-message history used as the order counterexample: the attachment
`"a"` is in the older message, `"b"` in the newer one. -/
def histPair : List Message :=
  [⟨[⟨"a", 1, true, some "ha", true⟩]⟩, ⟨[⟨"b", 1, true, some "hb", true⟩]⟩]

/-- Attachment of size 0 whose upload fails; `att.size and ...` is falsy. -/
def attZero : Attachment := ⟨"z", 0, true, none, true⟩

/-- An attempt outcome the client treats as transient: a network exception or
one of the statuses 429, 502, 503, 504. -/
def transientStep (x : ApiOutcome) : Prop :=
  x = .netError ∨ ∃ c, x = .status c ∧ transient c = true

/-! # Theorems -/

theorem mentionTail_spec {bang r2 id rest : List Char}
    (h : mentionTail bang r2 = some (id, rest)) :
    ∃ r4, r2.takeWhile pyIsDigit ≠ []
      ∧ r2.dropWhile pyIsDigit = '>' :: r4
      ∧ id = '<' :: '@' :: (bang ++ r2.takeWhile pyIsDigit ++ ['>'])
      ∧ rest = r4 := by
  unfold mentionTail at h
  split at h
  next r4 hgt =>
    split at h
    · exact absurd h (by simp)
    next hds =>
      obtain ⟨h1, h2⟩ := Prod.mk.inj (Option.some.inj h)
      exact ⟨r4, hds, hgt, h1.symm, h2.symm⟩
  next => exact absurd h (by simp)

theorem takeWhile_cons_dropWhile (p : Char → Bool) (l : List Char) :
    l = l.takeWhile p ++ l.dropWhile p :=
  (List.takeWhile_append_dropWhile (p := p) (l := l)).symm

theorem matchIdent_spec {cs id rest : List Char}
    (h : matchIdent cs = some (id, rest)) :
    cs.dropWhile pyIsSpace = id ++ rest
    ∧ ((∃ bang ds, (bang = [] ∨ bang = ['!']) ∧ ds ≠ []
          ∧ (∀ c ∈ ds, pyIsDigit c = true)
          ∧ id = '<' :: '@' :: (bang ++ ds ++ ['>']))
       ∨ (id ≠ [] ∧ (∀ c ∈ id, pyIsDigit c = true) ∧ id.length ≤ 30)) := by
  unfold matchIdent at h
  by_cases h2 : (cs.dropWhile pyIsSpace).take 2 = ['<', '@']
  · rw [if_pos h2] at h
    by_cases hb : ((cs.dropWhile pyIsSpace).drop 2).take 1 = ['!']
    · rw [if_pos hb] at h
      obtain ⟨r4, hds, hgt, hid, hrest⟩ := mentionTail_spec h
      have hcs : cs.dropWhile pyIsSpace
          = '<' :: '@' :: '!' :: ((cs.dropWhile pyIsSpace).drop 2).drop 1 := by
        conv_lhs => rw [← List.take_append_drop 2 (cs.dropWhile pyIsSpace)]
        rw [h2]
        conv_lhs => rw [← List.take_append_drop 1 ((cs.dropWhile pyIsSpace).drop 2)]
        rw [hb]
        simp
      constructor
      · rw [hcs, hid, hrest]
        conv_lhs =>
          rw [takeWhile_cons_dropWhile pyIsDigit (((cs.dropWhile pyIsSpace).drop 2).drop 1)]
        rw [hgt]
        simp
      · exact Or.inl ⟨['!'], _, Or.inr rfl, hds,
          fun c hc => List.mem_takeWhile_imp hc, hid⟩
    · rw [if_neg hb] at h
      obtain ⟨r4, hds, hgt, hid, hrest⟩ := mentionTail_spec h
      have hcs : cs.dropWhile pyIsSpace
          = '<' :: '@' :: (cs.dropWhile pyIsSpace).drop 2 := by
        conv_lhs => rw [← List.take_append_drop 2 (cs.dropWhile pyIsSpace)]
        rw [h2]
        simp
      constructor
      · rw [hcs, hid, hrest]
        conv_lhs =>
          rw [takeWhile_cons_dropWhile pyIsDigit ((cs.dropWhile pyIsSpace).drop 2)]
        rw [hgt]
        simp
      · exact Or.inl ⟨[], _, Or.inl rfl, hds,
          fun c hc => List.mem_takeWhile_imp hc, hid⟩
  · rw [if_neg h2] at h
    by_cases hds : (cs.dropWhile pyIsSpace).takeWhile pyIsDigit = []
    · rw [if_pos hds] at h
      exact absurd h (by simp)
    · rw [if_neg hds] at h
      obtain ⟨hidv, hrestv⟩ := Prod.mk.inj (Option.some.inj h)
      constructor
      · rw [← hidv, ← hrestv, ← List.append_assoc, List.take_append_drop]
        exact takeWhile_cons_dropWhile pyIsDigit (cs.dropWhile pyIsSpace)
      · refine Or.inr ⟨?_, ?_, ?_⟩
        · rw [← hidv]
          intro hnil
          rw [List.take_eq_nil_iff] at hnil
          rcases hnil with hnil | hnil
          · exact absurd hnil (by decide)
          · exact absurd hnil hds
        · intro c hc
          rw [← hidv] at hc
          exact List.mem_takeWhile_imp (List.mem_of_mem_take hc)
        · rw [← hidv, List.length_take]
          exact Nat.min_le_left 30 _

theorem matchTail_points {rest : List Char} {pts : Option (List Char)}
    {rule : List Char} (h : matchTail rest = some (pts, rule)) :
    pts = (if (rest.dropWhile pyIsSpace).takeWhile pyIsDigit = [] then none
           else some ((rest.dropWhile pyIsSpace).takeWhile pyIsDigit)) := by
  unfold matchTail at h
  split at h
  · obtain ⟨h1, h2⟩ := Prod.mk.inj (Option.some.inj h)
    exact h1.symm
  · exact absurd h (by simp)

theorem parse_left_eq (line : String) :
    ((splitPipe2 line).map pyStrip).headD "" = leftOf line := by
  unfold leftOf
  cases h : splitPipe2 line with
  | nil => rfl
  | cons a t => rfl

/-- C9: for every line the parser accepts, the identifier field is literally
the initial token of the stripped left `|`-segment (after the regex's leading
whitespace skip) and has the grammar's shape (mention form or a digit run of
length 1 to 30); the points field is the digit run that follows the
identifier, or the string `"0"` when that run is absent; and the two worked
examples produce exactly the stated records. -/
theorem parse_grammar_spec :
    (∀ line rec, parse_offender_line line = some rec →
      ∃ rest : List Char,
        (leftOf line).data.dropWhile pyIsSpace = rec.identifier.data ++ rest
        ∧ ((∃ bang ds, (bang = [] ∨ bang = ['!']) ∧ ds ≠ []
              ∧ (∀ c ∈ ds, pyIsDigit c = true)
              ∧ rec.identifier.data = '<' :: '@' :: (bang ++ ds ++ ['>']))
           ∨ (rec.identifier.data ≠ []
              ∧ (∀ c ∈ rec.identifier.data, pyIsDigit c = true)
              ∧ rec.identifier.data.length ≤ 30))
        ∧ ((rest.dropWhile pyIsSpace).takeWhile pyIsDigit = [] → rec.points = "0")
        ∧ ((rest.dropWhile pyIsSpace).takeWhile pyIsDigit ≠ [] →
            rec.points.data = (rest.dropWhile pyIsSpace).takeWhile pyIsDigit))
    ∧ parse_offender_line "<@123456789012345678> 2 Griefing | Internal | Public note"
        = some ⟨"<@123456789012345678>", "2", "Griefing", "Internal", "Public note"⟩
    ∧ parse_offender_line "76561198000000000 1 Spam || Public"
        = some ⟨"76561198000000000", "1", "Spam", "", "Public"⟩ := by
  refine ⟨?_, by decide, by decide⟩
  intro line rec h
  unfold parse_offender_line at h
  rw [parse_left_eq] at h
  split at h
  · exact absurd h (by simp)
  · split at h
    · exact absurd h (by simp)
    next ident rest heq1 =>
      split at h
      · exact absurd h (by simp)
      next pts rule heq2 =>
        obtain rfl := Option.some.inj h
        obtain ⟨hdec, hshape⟩ := matchIdent_spec heq1
        have hp := matchTail_points heq2
        refine ⟨rest, hdec, hshape, ?_, ?_⟩
        · intro hT
          rw [if_pos hT] at hp
          rw [hp]
        · intro hT
          rw [if_neg hT] at hp
          rw [hp]

theorem parse_grammar_spec_witness :
    ∃ rest : List Char,
      (leftOf "76561198000000000 1 Spam || Public").data.dropWhile pyIsSpace
        = ("76561198000000000" : String).data ++ rest
      ∧ ((∃ bang ds, (bang = [] ∨ bang = ['!']) ∧ ds ≠ []
            ∧ (∀ c ∈ ds, pyIsDigit c = true)
            ∧ ("76561198000000000" : String).data = '<' :: '@' :: (bang ++ ds ++ ['>']))
         ∨ (("76561198000000000" : String).data ≠ []
            ∧ (∀ c ∈ ("76561198000000000" : String).data, pyIsDigit c = true)
            ∧ ("76561198000000000" : String).data.length ≤ 30))
      ∧ ((rest.dropWhile pyIsSpace).takeWhile pyIsDigit = [] → ("1" : String) = "0")
      ∧ ((rest.dropWhile pyIsSpace).takeWhile pyIsDigit ≠ [] →
          ("1" : String).data = (rest.dropWhile pyIsSpace).takeWhile pyIsDigit) :=
  parse_grammar_spec.1 "76561198000000000 1 Spam || Public"
    ⟨"76561198000000000", "1", "Spam", "", "Public"⟩ (by decide)


theorem applyLoop_attempts_le (o : Nat → ApiOutcome) :
    ∀ fuel attempt sleeps, (applyLoop o fuel attempt sleeps).attemptsMade ≤ attempt + fuel := by
  intro fuel
  induction fuel with
  | zero => intro a s; simp [applyLoop]
  | succ f ih =>
    intro a s
    cases h : o a with
    | ok b => simp [applyLoop, h]
    | status c =>
      cases hc : transient c
      · simp [applyLoop, h, hc]
      · have := ih (a + 1) (s ++ [2 ^ a])
        simp [applyLoop, h, hc]
        omega
    | netError =>
      have := ih (a + 1) (s ++ [2 ^ a])
      simp [applyLoop, h]
      omega

theorem applyLoop_step {o : Nat → ApiOutcome} {a : Nat} (fuel : Nat) (s : List Nat)
    (h : transientStep (o a)) :
    applyLoop o (fuel + 1) a s = applyLoop o fuel (a + 1) (s ++ [2 ^ a]) := by
  rcases h with h | ⟨c, hc, hct⟩
  · simp [applyLoop, h]
  · simp [applyLoop, hc, hct]

theorem applyLoop_ok {o : Nat → ApiOutcome} {a : Nat} {b : Option String}
    (fuel : Nat) (s : List Nat) (h : o a = .ok b) :
    applyLoop o (fuel + 1) a s = ⟨true, b, s, a + 1⟩ := by
  simp [applyLoop, h]

theorem applyLoop_terminal {o : Nat → ApiOutcome} {a : Nat} {c : Nat}
    (fuel : Nat) (s : List Nat) (h : o a = .status c) (hct : transient c = false) :
    applyLoop o (fuel + 1) a s = ⟨false, none, s, a + 1⟩ := by
  simp [applyLoop, h, hct]

/-- C6: the scoring client makes at most 3 attempts; after `k` transient
failures (each of which slept `2 ^ i`), a 200 answer at attempt `k` returns
success with the parsed body (`none` for a non-JSON body), a non-transient
non-200 status returns failure immediately with no further attempt, and three
transient failures exhaust the attempts and return failure after sleeping
1, 2 and 4 time units. -/
theorem apply_points_retry_policy (s : String) (p : Int) (t : String)
    (o : Nat → ApiOutcome)
    (hp : ¬ (p ≤ 0 ∨ s = "" ∨ s = "Unknown"))
    (ht : ¬ (t = "" ∨ t = "CHANGE_ME")) :
    (apply_points s p t o).attemptsMade ≤ 3
    ∧ (∀ k, k < 3 → (∀ i, i < k → transientStep (o i)) →
        ((∀ b, o k = .ok b →
            apply_points s p t o = ⟨true, b, (List.range k).map (fun i => 2 ^ i), k + 1⟩)
         ∧ (∀ c, o k = .status c → transient c = false →
            apply_points s p t o
              = ⟨false, none, (List.range k).map (fun i => 2 ^ i), k + 1⟩)))
    ∧ ((∀ i, i < 3 → transientStep (o i)) →
        apply_points s p t o = ⟨false, none, [1, 2, 4], 3⟩) := by
  have hunf : apply_points s p t o = applyLoop o 3 0 [] := by
    rw [apply_points, if_neg hp, if_neg ht]
  refine ⟨?_, ?_, ?_⟩
  · rw [hunf]
    simpa using applyLoop_attempts_le o 3 0 []
  · intro k hk htr
    interval_cases k
    · constructor
      · intro b hb
        rw [hunf, applyLoop_ok 2 [] hb]
        simp
      · intro c hc hct
        rw [hunf, applyLoop_terminal 2 [] hc hct]
        simp
    · have step0 := applyLoop_step (o := o) 2 [] (htr 0 (by omega))
      constructor
      · intro b hb
        rw [hunf, step0, applyLoop_ok 1 _ hb]
        simp [List.range_succ]
      · intro c hc hct
        rw [hunf, step0, applyLoop_terminal 1 _ hc hct]
        simp [List.range_succ]
    · have step0 := applyLoop_step (o := o) 2 [] (htr 0 (by omega))
      have step1 := applyLoop_step (o := o) 1 ([] ++ [2 ^ 0]) (htr 1 (by omega))
      constructor
      · intro b hb
        rw [hunf, step0, step1, applyLoop_ok 0 _ hb]
        simp [List.range_succ]
      · intro c hc hct
        rw [hunf, step0, step1, applyLoop_terminal 0 _ hc hct]
        simp [List.range_succ]
  · intro htr
    have step0 := applyLoop_step (o := o) 2 [] (htr 0 (by omega))
    have step1 := applyLoop_step (o := o) 1 ([] ++ [2 ^ 0]) (htr 1 (by omega))
    have step2 := applyLoop_step (o := o) 0 (([] ++ [2 ^ 0]) ++ [2 ^ 1]) (htr 2 (by omega))
    rw [hunf, step0, step1, step2]
    simp [applyLoop]

theorem apply_points_retry_policy_witness :
    apply_points "7" 1 "tok" (fun _ => .status 400)
      = { success := false, response := none, sleeps := [], attemptsMade := 1 } :=
  ((apply_points_retry_policy "7" 1 "tok" (fun _ => .status 400)
      (by decide) (by decide)).2.1 0 (by decide)
      (fun i hi => absurd hi (by omega))).2 400 rfl (by decide)

/-- C8: with `points <= 0` or the `"Unknown"` steamid sentinel, the scoring
client returns success with no response and makes no attempt, whatever the
remote behaviour or token; when the short-circuit does not apply and the
token is missing or the `"CHANGE_ME"` placeholder, it returns failure with no
attempt. -/
theorem apply_points_short_circuit (s : String) (p : Int) (t : String)
    (o : Nat → ApiOutcome) :
    (p ≤ 0 → apply_points s p t o = ⟨true, none, [], 0⟩)
    ∧ (s = "Unknown" → apply_points s p t o = ⟨true, none, [], 0⟩)
    ∧ (¬ (p ≤ 0 ∨ s = "" ∨ s = "Unknown") → (t = "" ∨ t = "CHANGE_ME") →
        apply_points s p t o = ⟨false, none, [], 0⟩) := by
  refine ⟨?_, ?_, ?_⟩
  · intro h; simp [apply_points, h]
  · intro h; simp [apply_points, h]
  · intro h1 h2; rw [apply_points, if_neg h1, if_pos h2]

theorem apply_points_short_circuit_witness :
    apply_points "9" 0 "tok" (fun _ => .ok (some "x"))
      = { success := true, response := none, sleeps := [], attemptsMade := 0 } :=
  (apply_points_short_circuit "9" 0 "tok" (fun _ => .ok (some "x"))).1 (by decide)

/-- C2 (counterexample): for the mention identifier `<@12345678901234567>`
with rule `Spam`, no linked user row, and a store holding an infraction whose
steamid is exactly the digits of the identifier with reason `Spam`, the
resolver returns that steamid (established by the last-resort fallback, which
runs only after detection) yet `repeat_offender = false`: the detection query
was keyed by the discord id, not by the platform id the claim requires. -/
theorem repeat_fallback_key_counterexample :
    (StandaloneResolve.resolve_offender "<@12345678901234567>"
        (Store.mk [] [⟨some "12345678901234567", none, "Spam", 0⟩]).toDb
        (some failFetch) (some "Spam") 17).steamid = "12345678901234567"
    ∧ ((Store.mk [] [⟨some "12345678901234567", none, "Spam", 0⟩]).infractions.filter
        (fun i => i.steamid = some "12345678901234567" ∧ i.reason = "Spam")).length = 1
    ∧ (StandaloneResolve.resolve_offender "<@12345678901234567>"
        (Store.mk [] [⟨some "12345678901234567", none, "Spam", 0⟩]).toDb
        (some failFetch) (some "Spam") 17).repeat_offender = false := by
  decide

/-- C3 (counterexample): for the identifier `abc` (no digits, so the resolver
establishes no identity key) and rule `Spam` over an empty store, the repeat
flag is false; recording the infraction exactly as the orchestrator does
(with the resolved steamid string and discord id) and re-resolving the same
identifier and rule leaves the flag false — it does not flip to true. -/
theorem repeat_flip_counterexample :
    (StandaloneResolve.resolve_offender "abc" (Store.mk [] []).toDb
        (some failFetch) (some "Spam") 17).repeat_offender = false
    ∧ (StandaloneResolve.resolve_offender "abc"
        (recordInfraction (Store.mk [] [])
          (some (StandaloneResolve.resolve_offender "abc" (Store.mk [] []).toDb
            (some failFetch) (some "Spam") 17).steamid)
          (StandaloneResolve.resolve_offender "abc" (Store.mk [] []).toDb
            (some failFetch) (some "Spam") 17).discord_id
          "Spam" 0).toDb
        (some failFetch) (some "Spam") 17).repeat_offender = false := by
  decide

/-- C7 (counterexample): for the mention identifier `<@123>` with every
database query and the name lookup raising, the returned Offender is not
all-defaults: the discord id is taken from the identifier itself and the
display name is the `"Unresolved User"` sentinel, not `"Unknown"`. -/
theorem resolve_defaults_counterexample :
    StandaloneResolve.resolve_offender "<@123>" failDb (some failFetch) (some "Spam") 17
      = { steamid := "Unknown", discord_id := some 123
        , discord_name := "Unresolved User", ign := "Unknown", repeat_offender := false }
    ∧ (StandaloneResolve.resolve_offender "<@123>" failDb (some failFetch)
        (some "Spam") 17).discord_name ≠ "Unknown"
    ∧ (StandaloneResolve.resolve_offender "<@123>" failDb (some failFetch)
        (some "Spam") 17).discord_id ≠ none := by
  decide

/-- C10 (counterexample): given identical stores and a fetch capability that
returns a user object with neither a `display_name` nor a `name` attribute,
the two `resolve_offender` implementations disagree: the standalone one falls
back to `"Unresolved User"`, the cog one to `"Unknown"`. -/
theorem resolver_equivalence_counterexample :
    StandaloneResolve.resolve_offender "<@123>" (Store.mk [] []).toDb
        (some (fun _ => .ok ⟨none, none⟩)) none 17
      ≠ Cog.resolve_offender (fun _ => .ok ⟨none, none⟩) "<@123>"
        (Store.mk [] []).toDb none 17 := by
  decide

/-- C10 (amended): the two `resolve_offender` implementations agree on every
input whenever each user object the fetch capability returns has a truthy
`display_name` or at least exposes a `name` attribute; they can differ only
in the display-name default used when both attributes are missing. -/
theorem resolvers_agree (db : Db) (f : FetchUser) (identifier : String)
    (rule : Option String) (minLen : Nat)
    (hf : ∀ i u, f i = .ok u →
      pyTruthyStr (pyGetAttr u.display_name none) = true ∨ u.name ≠ none) :
    StandaloneResolve.resolve_offender identifier db (some f) rule minLen
      = Cog.resolve_offender f identifier db rule minLen := by
  unfold StandaloneResolve.resolve_offender Cog.resolve_offender
  have hname : parserFetchName (some f) = cogFetchName f := by
    funext cur d
    have hL : parserFetchName (some f) cur d
        = (match f d with
           | .ok u => parserNameExpr u
           | .error _ => some "Unresolved User") := rfl
    have hR : cogFetchName f cur d
        = (match f d with
           | .ok u => cogNameExpr u
           | .error _ => some "Unresolved User") := rfl
    rw [hL, hR]
    cases hfd : f d with
    | error e => rfl
    | ok u =>
      show parserNameExpr u = cogNameExpr u
      unfold parserNameExpr cogNameExpr pyOrOpt
      rcases hf d u hfd with h | h
      · simp [h]
      · rcases hn : u.name with _ | v
        · exact absurd hn h
        · simp [pyGetAttr, hn]
  rw [hname]

theorem resolvers_agree_witness :
    StandaloneResolve.resolve_offender "<@123>" failDb (some failFetch) none 17
      = Cog.resolve_offender failFetch "<@123>" failDb none 17 :=
  resolvers_agree failDb failFetch "<@123>" none 17
    (fun _ _ h => Except.noConfusion h)

theorem filter_length_pos {α} (l : List α) (p : α → Prop) [DecidablePred p] :
    0 < (l.filter (fun x => decide (p x))).length ↔ ∃ x ∈ l, p x := by
  constructor
  · intro h
    obtain ⟨x, hx⟩ := List.exists_mem_of_length_pos h
    have hm := List.mem_filter.mp hx
    exact ⟨x, hm.1, of_decide_eq_true hm.2⟩
  · rintro ⟨x, hxl, hx⟩
    exact List.length_pos.mpr
      (List.ne_nil_of_mem (List.mem_filter.mpr ⟨hxl, decide_eq_true hx⟩))

theorem identityPhase_congr_users (n : Option String → Int → Option String)
    (db1 db2 : Db) (identifier : String) (m : Nat)
    (h1 : db1.usersByDiscordId = db2.usersByDiscordId)
    (h2 : db1.usersBySteamId = db2.usersBySteamId) :
    identityPhase n db1 identifier m = identityPhase n db2 identifier m := by
  unfold identityPhase
  rw [h1, h2]

theorem queryKeyD_not_inl (d : Option Int) (s : String) :
    queryKeyD d ≠ some (Sum.inl s) := by
  cases d with
  | none => simp [queryKeyD]
  | some dv => by_cases hd : dv = 0 <;> simp [queryKeyD, hd]

theorem queryKey_inl {sid : Option String} {d : Option Int} {s : String}
    (h : queryKey sid d = some (Sum.inl s)) :
    sid = some s ∧ s ≠ "" ∧ s ≠ "Unknown" := by
  cases sid with
  | none =>
    simp only [queryKey] at h
    exact absurd h (queryKeyD_not_inl d s)
  | some s0 =>
    simp only [queryKey] at h
    by_cases hc : s0 ≠ "" ∧ s0 ≠ "Unknown"
    · rw [if_pos hc] at h
      have h1 := Sum.inl.inj (Option.some.inj h)
      subst h1
      exact ⟨rfl, hc⟩
    · rw [if_neg hc] at h
      exact absurd h (queryKeyD_not_inl d s)

theorem queryKeyD_inr {d : Option Int} {dv : Int}
    (h : queryKeyD d = some (Sum.inr dv)) : d = some dv ∧ dv ≠ 0 := by
  cases d with
  | none => simp [queryKeyD] at h
  | some dv0 =>
    by_cases hd : dv0 = 0
    · simp [queryKeyD, hd] at h
    · simp only [queryKeyD] at h
      rw [if_pos hd] at h
      have h1 := Sum.inr.inj (Option.some.inj h)
      subst h1
      exact ⟨rfl, hd⟩

theorem queryKey_inr {sid : Option String} {d : Option Int} {dv : Int}
    (h : queryKey sid d = some (Sum.inr dv)) :
    queryKeyD d = some (Sum.inr dv) := by
  cases sid with
  | none => simpa only [queryKey] using h
  | some s0 =>
    simp only [queryKey] at h
    by_cases hc : s0 ≠ "" ∧ s0 ≠ "Unknown"
    · rw [if_pos hc] at h
      exact absurd (Option.some.inj h) (by simp)
    · rwa [if_neg hc] at h

theorem detectByRuleD_store (st : Store) (rc : String) (d : Option Int) :
    detectByRuleD st.toDb rc d = true
      ↔ ∃ k, queryKeyD d = some k ∧ ∃ inf ∈ st.infractions, infMatches k rc inf := by
  cases d with
  | none => simp [detectByRuleD, queryKeyD]
  | some dv =>
    by_cases hd : dv = 0
    · simp [detectByRuleD, queryKeyD, hd]
    · simp only [detectByRuleD, queryKeyD]
      rw [if_pos hd, if_pos hd]
      simp only [Store.toDb, decide_eq_true_eq]
      rw [Int.natCast_pos, filter_length_pos]
      constructor
      · rintro ⟨inf, hmem, hinf⟩
        exact ⟨Sum.inr dv, rfl, inf, hmem, hinf⟩
      · rintro ⟨k, hk, inf, hmem, hinf⟩
        obtain rfl := Option.some.inj hk
        exact ⟨inf, hmem, hinf⟩

theorem detectByRule_store (st : Store) (rc : String) (sid : Option String) (d : Option Int) :
    detectByRule st.toDb rc sid d = true
      ↔ ∃ k, queryKey sid d = some k ∧ ∃ inf ∈ st.infractions, infMatches k rc inf := by
  cases sid with
  | none => simpa only [detectByRule, queryKey] using detectByRuleD_store st rc d
  | some s =>
    by_cases hs : s ≠ "" ∧ s ≠ "Unknown"
    · simp only [detectByRule, queryKey]
      rw [if_pos hs, if_pos hs]
      simp only [Store.toDb, decide_eq_true_eq]
      rw [Int.natCast_pos, filter_length_pos]
      constructor
      · rintro ⟨inf, hmem, hinf⟩
        exact ⟨Sum.inl s, rfl, inf, hmem, hinf⟩
      · rintro ⟨k, hk, inf, hmem, hinf⟩
        obtain rfl := Option.some.inj hk
        exact ⟨inf, hmem, hinf⟩
    · simp only [detectByRule, queryKey, hs, if_false]
      exact detectByRuleD_store st rc d

/-- C3 (amended): over a concrete store, `repeat_offender` is true iff the
store holds an infraction matching the detection key the resolver actually
uses (pre-fallback steamid when truthy and not `"Unknown"`, else truthy
discord id) with the same rule; and when such a key exists, recording the
infraction exactly as the orchestrator does and re-resolving the same
identifier and rule yields a true flag. When no key exists the flag stays
false. -/
theorem repeat_flag_iff_and_flip (st : Store) (f : Option FetchUser)
    (identifier rule : String) (ts : Int)
    (h1 : rule ≠ "") (h2 : pyStrip rule = rule) :
    ((StandaloneResolve.resolve_offender identifier st.toDb f (some rule) 17).repeat_offender
        = true
      ↔ ∃ k, queryKey (identityPhase (parserFetchName f) st.toDb identifier 17).steamid
                (identityPhase (parserFetchName f) st.toDb identifier 17).discord_id = some k
          ∧ ∃ inf ∈ st.infractions, infMatches k rule inf)
    ∧ (∀ k, queryKey (identityPhase (parserFetchName f) st.toDb identifier 17).steamid
              (identityPhase (parserFetchName f) st.toDb identifier 17).discord_id = some k →
        (StandaloneResolve.resolve_offender identifier
            (recordInfraction st
              (some (StandaloneResolve.resolve_offender identifier st.toDb f
                (some rule) 17).steamid)
              (StandaloneResolve.resolve_offender identifier st.toDb f
                (some rule) 17).discord_id
              rule ts).toDb
            f (some rule) 17).repeat_offender = true) := by
  have hrep : ∀ st' : Store,
      identityPhase (parserFetchName f) st'.toDb identifier 17
          = identityPhase (parserFetchName f) st.toDb identifier 17 →
      (StandaloneResolve.resolve_offender identifier st'.toDb f (some rule) 17).repeat_offender
        = detectByRule st'.toDb rule
            (identityPhase (parserFetchName f) st.toDb identifier 17).steamid
            (identityPhase (parserFetchName f) st.toDb identifier 17).discord_id := by
    intro st' hid
    simp only [StandaloneResolve.resolve_offender, resolveGen, hid, detectRepeat]
    rw [h2, if_pos ⟨h1, h1⟩]
  have hr1d : (StandaloneResolve.resolve_offender identifier st.toDb f
        (some rule) 17).discord_id
      = (identityPhase (parserFetchName f) st.toDb identifier 17).discord_id := by
    simp only [StandaloneResolve.resolve_offender, resolveGen]
  constructor
  · rw [hrep st rfl]
    exact detectByRule_store st rule _ _
  · intro k hk
    have hid2 : identityPhase (parserFetchName f)
        (recordInfraction st
          (some (StandaloneResolve.resolve_offender identifier st.toDb f
            (some rule) 17).steamid)
          (StandaloneResolve.resolve_offender identifier st.toDb f
            (some rule) 17).discord_id
          rule ts).toDb identifier 17
        = identityPhase (parserFetchName f) st.toDb identifier 17 :=
      identityPhase_congr_users _ _ _ _ _ rfl rfl
    rw [hrep _ hid2]
    apply (detectByRule_store _ rule _ _).mpr
    refine ⟨k, hk, ?_⟩
    cases k with
    | inl s =>
      obtain ⟨hsid, hs1, _⟩ := queryKey_inl hk
      have hr1s : (StandaloneResolve.resolve_offender identifier st.toDb f
            (some rule) 17).steamid = s := by
        simp only [StandaloneResolve.resolve_offender, resolveGen, lastResortSteam, hsid]
        simp [pyTruthyStr, hs1, pyStrOr]
      refine ⟨⟨some (StandaloneResolve.resolve_offender identifier st.toDb f
          (some rule) 17).steamid,
        (StandaloneResolve.resolve_offender identifier st.toDb f
          (some rule) 17).discord_id, rule, ts⟩, ?_, ?_⟩
      · simp [recordInfraction]
      · exact ⟨by rw [hr1s], rfl⟩
    | inr dv =>
      obtain ⟨hd, _⟩ := queryKeyD_inr (queryKey_inr hk)
      refine ⟨⟨some (StandaloneResolve.resolve_offender identifier st.toDb f
          (some rule) 17).steamid,
        (StandaloneResolve.resolve_offender identifier st.toDb f
          (some rule) 17).discord_id, rule, ts⟩, ?_, ?_⟩
      · simp [recordInfraction]
      · exact ⟨by rw [hr1d, hd], rfl⟩

theorem repeat_flag_iff_and_flip_witness :
    (((StandaloneResolve.resolve_offender "77561198000000001"
          (Store.mk [] []).toDb (some failFetch) (some "Spam") 17).repeat_offender = true
      ↔ ∃ k, queryKey
            (identityPhase (parserFetchName (some failFetch))
              (Store.mk [] []).toDb "77561198000000001" 17).steamid
            (identityPhase (parserFetchName (some failFetch))
              (Store.mk [] []).toDb "77561198000000001" 17).discord_id = some k
          ∧ ∃ inf ∈ (Store.mk [] ([] : List Infraction)).infractions,
              infMatches k "Spam" inf)
    ∧ (∀ k, queryKey
            (identityPhase (parserFetchName (some failFetch))
              (Store.mk [] []).toDb "77561198000000001" 17).steamid
            (identityPhase (parserFetchName (some failFetch))
              (Store.mk [] []).toDb "77561198000000001" 17).discord_id = some k →
        (StandaloneResolve.resolve_offender "77561198000000001"
            (recordInfraction (Store.mk [] [])
              (some (StandaloneResolve.resolve_offender "77561198000000001"
                (Store.mk [] []).toDb (some failFetch) (some "Spam") 17).steamid)
              (StandaloneResolve.resolve_offender "77561198000000001"
                (Store.mk [] []).toDb (some failFetch) (some "Spam") 17).discord_id
              "Spam" 0).toDb
            (some failFetch) (some "Spam") 17).repeat_offender = true))
    ∧ (StandaloneResolve.resolve_offender "77561198000000001"
        (recordInfraction (Store.mk [] [])
          (some (StandaloneResolve.resolve_offender "77561198000000001"
            (Store.mk [] []).toDb (some failFetch) (some "Spam") 17).steamid)
          (StandaloneResolve.resolve_offender "77561198000000001"
            (Store.mk [] []).toDb (some failFetch) (some "Spam") 17).discord_id
          "Spam" 0).toDb
        (some failFetch) (some "Spam") 17).repeat_offender = true :=
  ⟨repeat_flag_iff_and_flip (Store.mk [] []) (some failFetch) "77561198000000001" "Spam" 0
      (by decide) (by decide),
   (repeat_flag_iff_and_flip (Store.mk [] []) (some failFetch) "77561198000000001" "Spam" 0
      (by decide) (by decide)).2 (Sum.inl "77561198000000001") (by decide)⟩

theorem not_digit_of_space {c : Char} (h : pyIsSpace c = true) : pyIsDigit c = false := by
  simp only [pyIsSpace, decide_eq_true_eq] at h
  rcases h with h | h | h | h | h | h <;> subst h <;> decide

theorem pyStripList_decomp (l : List Char) :
    ∃ u v, l = u ++ pyStripList l ++ v
      ∧ (∀ c ∈ u, pyIsSpace c = true) ∧ (∀ c ∈ v, pyIsSpace c = true) := by
  refine ⟨l.takeWhile pyIsSpace,
    ((l.dropWhile pyIsSpace).reverse.takeWhile pyIsSpace).reverse, ?_, ?_, ?_⟩
  · unfold pyStripList
    conv_lhs => rw [← List.takeWhile_append_dropWhile (p := pyIsSpace) (l := l)]
    rw [List.append_assoc]
    congr 1
    have hm : l.dropWhile pyIsSpace
        = ((l.dropWhile pyIsSpace).reverse.takeWhile pyIsSpace
            ++ (l.dropWhile pyIsSpace).reverse.dropWhile pyIsSpace).reverse := by
      rw [List.takeWhile_append_dropWhile, List.reverse_reverse]
    conv_lhs => rw [hm]
    rw [List.reverse_append]
  · intro c hc
    exact List.mem_takeWhile_imp hc
  · intro c hc
    rw [List.mem_reverse] at hc
    exact List.mem_takeWhile_imp hc

theorem pyStripNonDigits_pyStrip (s : String) :
    pyStripNonDigits (pyStrip s) = pyStripNonDigits s := by
  obtain ⟨u, v, hdec, hu, hv⟩ := pyStripList_decomp s.data
  unfold pyStripNonDigits pyStrip
  apply congrArg String.mk
  conv_rhs => rw [hdec]
  rw [List.filter_append, List.filter_append]
  have hu0 : u.filter pyIsDigit = [] :=
    List.filter_eq_nil_iff.mpr (fun c hc => by simp [not_digit_of_space (hu c hc)])
  have hv0 : v.filter pyIsDigit = [] :=
    List.filter_eq_nil_iff.mpr (fun c hc => by simp [not_digit_of_space (hv c hc)])
  rw [hu0, hv0]
  simp

theorem pyStripNonDigits_of_digits {s : String} (h : pyIsDigitStr (pyStrip s) = true) :
    pyStripNonDigits s = pyStrip s := by
  rw [← pyStripNonDigits_pyStrip]
  have h2 := (of_decide_eq_true h).2
  unfold pyStripNonDigits
  conv_rhs => rw [show pyStrip s = ⟨(pyStrip s).data⟩ from rfl]
  exact congrArg String.mk
    (List.filter_eq_self.mpr (fun c hc => List.all_eq_true.mp h2 c hc))

theorem detectByRuleD_failDb (rc : String) (d : Option Int) :
    detectByRuleD failDb rc d = false := by
  cases d with
  | none => rfl
  | some dv => by_cases h : dv = 0 <;> simp [detectByRuleD, failDb, h]

theorem detectByRule_failDb (rc : String) (sid : Option String) (d : Option Int) :
    detectByRule failDb rc sid d = false := by
  cases sid with
  | none => simp [detectByRule, detectByRuleD_failDb]
  | some s =>
    by_cases h : s ≠ "" ∧ s ≠ "Unknown"
    · simp [detectByRule, failDb, h]
    · simp only [detectByRule, if_neg h]
      exact detectByRuleD_failDb rc d

theorem detectGenericD_failDb (d : Option Int) :
    detectGenericD failDb d = false := by
  cases d with
  | none => rfl
  | some dv => by_cases h : dv = 0 <;> simp [detectGenericD, failDb, h]

theorem detectGeneric_failDb (sid : Option String) (d : Option Int) :
    detectGeneric failDb sid d = false := by
  cases sid with
  | none => simp [detectGeneric, detectGenericD_failDb]
  | some s =>
    by_cases h : s ≠ "" ∧ s ≠ "Unknown"
    · simp [detectGeneric, failDb, h]
    · simp only [detectGeneric, if_neg h]
      exact detectGenericD_failDb d

theorem detectRepeat_failDb (rule : Option String) (sid : Option String) (d : Option Int) :
    detectRepeat failDb rule sid d = false := by
  cases rule with
  | none => exact detectGeneric_failDb sid d
  | some r =>
    by_cases h : r ≠ "" ∧ pyStrip r ≠ "" <;>
      simp [detectRepeat, h, detectByRule_failDb, detectGeneric_failDb]

/-- C7 (amended): the resolver is a total function of its inputs (so it never
throws), and when every store query and the name lookup raise, every
store-derived field degrades to its default (`ign = "Unknown"`,
`repeat_offender = false`, no steamid beyond the digit fallback), while
information derived from the identifier itself survives: the chat id parsed
from a mention or short digit run, the digits adopted as the platform id when
long enough, and the `"Unresolved User"` sentinel as display name exactly
when a name lookup was attempted and failed (mention form). -/
theorem resolve_degrades_to_defaults (identifier : String) (rule : Option String) :
    StandaloneResolve.resolve_offender identifier failDb (some failFetch) rule 17
      = { steamid := if 17 ≤ (pyStripNonDigits identifier).length
                     then pyStripNonDigits identifier else "Unknown"
        , discord_id :=
            match parseMention (pyStrip identifier) with
            | some d => some d
            | none =>
              if pyIsDigitStr (pyStrip identifier) ∧ ¬ 17 ≤ (pyStrip identifier).length
              then some ((digitsToNat (pyStrip identifier).data : Nat) : Int)
              else none
        , discord_name := if (parseMention (pyStrip identifier)).isSome
                          then "Unresolved User" else "Unknown"
        , ign := "Unknown"
        , repeat_offender := false } := by
  have hfin : ∀ st0 : Option String, pyStrOr (lastResortSteam identifier 17 st0) "Unknown"
      = (if pyTruthyStr st0 then pyStrOr st0 "Unknown"
         else if 17 ≤ (pyStripNonDigits identifier).length
              then pyStripNonDigits identifier else "Unknown") := by
    intro st0
    by_cases ht : pyTruthyStr st0 = true
    · simp [lastResortSteam, ht]
    · have ht' : pyTruthyStr st0 = false := by
        cases h0 : pyTruthyStr st0
        · rfl
        · exact absurd h0 ht
      by_cases hlen : 17 ≤ (pyStripNonDigits identifier).length
      · have hne : pyStripNonDigits identifier ≠ "" := by
          intro he
          rw [he] at hlen
          simp at hlen
        simp [lastResortSteam, ht', hlen, hne, pyStrOr]
      · have : ¬ (pyStripNonDigits identifier ≠ ""
            ∧ 17 ≤ (pyStripNonDigits identifier).length) := by
          rintro ⟨-, hc⟩
          exact hlen hc
        simp only [lastResortSteam, ht', Bool.false_eq_true, if_false, if_neg this]
        cases st0 with
        | none => simp [pyStrOr, hlen]
        | some s0 =>
          have : s0 = "" := by
            by_contra hs
            exact ht (by simp [pyTruthyStr, hs])
          simp [pyStrOr, this, hlen]
  cases hm : parseMention (pyStrip identifier) with
  | some d =>
    have hi : identityPhase (parserFetchName (some failFetch)) failDb identifier 17
        = ⟨none, some d, some "Unresolved User", "Unknown"⟩ := by
      simp only [identityPhase, hm]
      simp [failDb, parserFetchName, failFetch]
    unfold StandaloneResolve.resolve_offender resolveGen
    rw [hi]
    simp only [hfin]
    simp [detectRepeat_failDb, pyTruthyStr, pyStrOr, hm]
  | none =>
    cases hdig : pyIsDigitStr (pyStrip identifier) with
    | true =>
      have hsd : pyStripNonDigits identifier = pyStrip identifier :=
        pyStripNonDigits_of_digits hdig
      by_cases hlen : 17 ≤ (pyStrip identifier).length
      · have hi : identityPhase (parserFetchName (some failFetch)) failDb identifier 17
            = ⟨some (pyStrip identifier), none, some "Unknown", "Unknown"⟩ := by
          simp only [identityPhase, hm]
          simp [hdig, hlen, failDb]
        unfold StandaloneResolve.resolve_offender resolveGen
        rw [hi]
        have hne : pyStrip identifier ≠ "" := (of_decide_eq_true hdig).1
        simp only [hfin]
        simp [detectRepeat_failDb, pyTruthyStr, pyStrOr, hm, hne, hsd, hlen, hdig]
      · have hi : identityPhase (parserFetchName (some failFetch)) failDb identifier 17
            = ⟨none, some ((digitsToNat (pyStrip identifier).data : Nat) : Int),
               some "Unknown", "Unknown"⟩ := by
          simp only [identityPhase, hm]
          simp [hdig, hlen, failDb]
        unfold StandaloneResolve.resolve_offender resolveGen
        rw [hi]
        simp only [hfin]
        simp [detectRepeat_failDb, pyTruthyStr, pyStrOr, hm, hsd, hlen, hdig]
    | false =>
      by_cases hc : pyStripNonDigits (pyStrip identifier) ≠ ""
          ∧ 17 ≤ (pyStripNonDigits (pyStrip identifier)).length
      · have hi : identityPhase (parserFetchName (some failFetch)) failDb identifier 17
            = ⟨some (pyStripNonDigits (pyStrip identifier)), none,
               some "Unknown", "Unknown"⟩ := by
          simp only [identityPhase, hm]
          simp [hdig, hc, failDb]
        unfold StandaloneResolve.resolve_offender resolveGen
        rw [hi]
        simp only [hfin]
        have hc1 : pyStripNonDigits identifier ≠ "" := by
          rw [← pyStripNonDigits_pyStrip]
          exact hc.1
        have hc2 : 17 ≤ (pyStripNonDigits identifier).length := by
          rw [← pyStripNonDigits_pyStrip]
          exact hc.2
        have hsd2 : pyStripNonDigits (pyStrip identifier) = pyStripNonDigits identifier :=
          pyStripNonDigits_pyStrip identifier
        simp [detectRepeat_failDb, pyTruthyStr, pyStrOr, hm, hdig, hc1, hc2, hsd2]
      · have hi : identityPhase (parserFetchName (some failFetch)) failDb identifier 17
            = ⟨none, none, some "Unknown", "Unknown"⟩ := by
          simp only [identityPhase, hm]
          simp [hdig, failDb]
          intro h1
          by_contra hle
          exact hc ⟨h1, by omega⟩
        unfold StandaloneResolve.resolve_offender resolveGen
        rw [hi]
        have hlen : ¬ 17 ≤ (pyStripNonDigits identifier).length := by
          rw [← pyStripNonDigits_pyStrip]
          intro hl
          refine hc ⟨?_, hl⟩
          intro he
          rw [he] at hl
          simp at hl
        simp only [hfin]
        simp [detectRepeat_failDb, pyTruthyStr, pyStrOr, hm, hdig, hlen]

/-- C2 (amended): when the platform id is established only by the last-resort
fallback (which the code runs after repeat detection), the repeat query is
keyed by the chat account id known at detection time, not by the returned
platform id: for a mention identifier with no linked user row whose digits
reach the minimum length, the result carries those digits as its platform id
while `repeat_offender` equals `count > 0` of the infractions keyed by the
mention's chat id and the stripped rule. -/
theorem repeat_uses_pre_fallback_key (st : Store) (f : Option FetchUser)
    (identifier rule : String) (d : Int)
    (hm : parseMention (pyStrip identifier) = some d)
    (hd : d ≠ 0)
    (hr : pyStrip rule ≠ "")
    (hu : st.users.find? (fun u => u.discordid = some d) = none)
    (hlen : 17 ≤ (pyStripNonDigits identifier).length) :
    (StandaloneResolve.resolve_offender identifier st.toDb f (some rule) 17).steamid
        = pyStripNonDigits identifier
    ∧ (StandaloneResolve.resolve_offender identifier st.toDb f (some rule) 17).repeat_offender
        = decide (0 < (st.infractions.filter
            (fun i => i.discordid = some d ∧ i.reason = pyStrip rule)).length) := by
  have hrule : rule ≠ "" := by
    intro h
    rw [h] at hr
    exact hr rfl
  have hne : pyStripNonDigits identifier ≠ "" := by
    intro h
    rw [h] at hlen
    simp at hlen
  have hi : identityPhase (parserFetchName f) st.toDb identifier 17
      = ⟨none, some d, parserFetchName f (some "Unknown") d, "Unknown"⟩ := by
    simp only [identityPhase, hm]
    simp [Store.toDb, hu, updFromUserRowSI]
  constructor
  · unfold StandaloneResolve.resolve_offender resolveGen
    rw [hi]
    simp [lastResortSteam, pyTruthyStr, pyStrOr, hne, hlen]
  · unfold StandaloneResolve.resolve_offender resolveGen
    rw [hi]
    simp only [detectRepeat]
    rw [if_pos ⟨hrule, hr⟩]
    simp [detectByRule, detectByRuleD, hd, Store.toDb]

theorem repeat_uses_pre_fallback_key_witness :
    (StandaloneResolve.resolve_offender "<@12345678901234568>"
        (Store.mk [] [⟨none, some 12345678901234568, "Spam", 5⟩]).toDb
        (some failFetch) (some "Spam") 17).steamid
      = pyStripNonDigits "<@12345678901234568>"
    ∧ (StandaloneResolve.resolve_offender "<@12345678901234568>"
        (Store.mk [] [⟨none, some 12345678901234568, "Spam", 5⟩]).toDb
        (some failFetch) (some "Spam") 17).repeat_offender
      = decide (0 < ((Store.mk [] [⟨none, some 12345678901234568, "Spam", 5⟩]).infractions.filter
          (fun i => i.discordid = some 12345678901234568 ∧ i.reason = pyStrip "Spam")).length) :=
  repeat_uses_pre_fallback_key
    (Store.mk [] [⟨none, some 12345678901234568, "Spam", 5⟩]) (some failFetch)
    "<@12345678901234568>" "Spam" 12345678901234568
    (by decide) (by decide) (by decide) (by decide) (by decide)

theorem mem_collect {h : List Message} {e : Entry}
    (he : e ∈ collect_and_upload_attachments h) :
    ∃ m ∈ h, ∃ a ∈ m.atts, e = processAttachment a := by
  unfold collect_and_upload_attachments at he
  rcases List.mem_flatMap.mp he with ⟨m, hm, hme⟩
  rcases List.mem_map.mp hme with ⟨a, ha, rfl⟩
  exact ⟨m, List.mem_reverse.mp hm, a, ha, rfl⟩

theorem processAttachment_exclusive (a : Attachment) :
    ¬ ((processAttachment a).url.isSome = true ∧ (processAttachment a).fallback = true) := by
  unfold processAttachment
  split
  · simp
  · split
    · simp
    · split
      · simp
      · split <;> simp

/-- C1 (counterexample): in a two-message history where attachment `"a"`
precedes attachment `"b"`, the collector emits `"b"`'s entry first, so `"a"`'s
entry does not precede `"b"`'s — the history is iterated newest-first
(`oldest_first=False`), contradicting the claimed chronological order. -/
theorem collect_order_counterexample :
    (collect_and_upload_attachments histPair).map Entry.filename = ["b", "a"] ∧
    ¬ (((collect_and_upload_attachments histPair).map Entry.filename).indexOf "a"
        < ((collect_and_upload_attachments histPair).map Entry.filename).indexOf "b") := by
  decide

/-- C1 (amended): the collector processes messages newest-first, so it is an
order-reversing homomorphism on the chronological history: evidence for a
later block of messages precedes evidence for an earlier block, while the
attachments of a single message keep their within-message order. -/
theorem collect_reverses_history (xs ys : List Message) (m : Message) :
    collect_and_upload_attachments (xs ++ ys)
      = collect_and_upload_attachments ys ++ collect_and_upload_attachments xs
    ∧ collect_and_upload_attachments [m] = m.atts.map processAttachment := by
  refine ⟨?_, ?_⟩
  · unfold collect_and_upload_attachments
    rw [List.reverse_append, List.flatMap_append]
  · simp [collect_and_upload_attachments]

/-- C4 (counterexample): an attachment of size 0 whose download succeeded and
whose upload returned null receives no inline fallback (the code's
`att.size and att.size < 25 MiB` guard is falsy at size 0), although its size
is below 25 MiB. -/
theorem fallback_zero_size_counterexample :
    collect_and_upload_attachments [⟨[attZero]⟩]
        = [{ filename := "z", url := none, fallback := false }]
      ∧ attZero.uploadUrl = none ∧ attZero.downloadOk = true
      ∧ attZero.size < 25 * MiB := by
  decide

/-- C4 (amended): for an attachment whose upload returned null, the entry
carries the inline fallback when the size is positive and below 25 MiB and
the inline-file creation succeeds; when the size is at or above 25 MiB the
entry carries neither url nor fallback. -/
theorem fallback_policy (h : List Message) (m : Message) (a : Attachment)
    (hm : m ∈ h) (ha : a ∈ m.atts) :
    processAttachment a ∈ collect_and_upload_attachments h
    ∧ (a.downloadOk = true → a.uploadUrl = none →
        ((0 < a.size → a.size < 25 * MiB → a.toFileOk = true →
            (processAttachment a).fallback = true ∧ (processAttachment a).url = none)
         ∧ (25 * MiB ≤ a.size →
            (processAttachment a).url = none ∧ (processAttachment a).fallback = false))) := by
  constructor
  · unfold collect_and_upload_attachments
    exact List.mem_flatMap.mpr ⟨m, List.mem_reverse.mpr hm, List.mem_map.mpr ⟨a, ha, rfl⟩⟩
  · intro hdl hup
    constructor
    · intro h0 h25 htf
      unfold processAttachment
      rw [hup, hdl]
      have hlt : ¬ (250 * MiB ≤ a.size) := by
        intro hc
        have : (25 : Nat) * MiB ≤ 250 * MiB := by unfold MiB; omega
        omega
      simp only [if_neg hlt]
      have hne : a.size ≠ 0 := by omega
      simp [htf, hne, h25]
    · intro h25
      unfold processAttachment
      rw [hup, hdl]
      by_cases hc : 250 * MiB ≤ a.size
      · simp [hc]
      · simp only [if_neg hc]
        have : ¬ (a.size ≠ 0 ∧ a.size < 25 * MiB) := by
          rintro ⟨-, hlt⟩
          omega
        simp [this]

theorem fallback_policy_witness :
    (⟨[⟨"f", 1, true, none, true⟩]⟩ : Message) ∈
        [(⟨[⟨"f", 1, true, none, true⟩]⟩ : Message)]
    ∧ (processAttachment ⟨"f", 1, true, none, true⟩ ∈
        collect_and_upload_attachments [⟨[⟨"f", 1, true, none, true⟩]⟩]
      ∧ ((⟨"f", 1, true, none, true⟩ : Attachment).downloadOk = true →
          (⟨"f", 1, true, none, true⟩ : Attachment).uploadUrl = none →
          ((0 < (⟨"f", 1, true, none, true⟩ : Attachment).size →
              (⟨"f", 1, true, none, true⟩ : Attachment).size < 25 * MiB →
              (⟨"f", 1, true, none, true⟩ : Attachment).toFileOk = true →
              (processAttachment ⟨"f", 1, true, none, true⟩).fallback = true
                ∧ (processAttachment ⟨"f", 1, true, none, true⟩).url = none)
           ∧ (25 * MiB ≤ (⟨"f", 1, true, none, true⟩ : Attachment).size →
              (processAttachment ⟨"f", 1, true, none, true⟩).url = none
                ∧ (processAttachment ⟨"f", 1, true, none, true⟩).fallback = false)))) :=
  ⟨by decide,
   fallback_policy [⟨[⟨"f", 1, true, none, true⟩]⟩] ⟨[⟨"f", 1, true, none, true⟩]⟩
     ⟨"f", 1, true, none, true⟩ (by decide) (by decide)⟩

/-- C5: no entry produced by the collector ever carries both a hosted url and
an inline fallback: the fallback is only attempted in the `if not url:`
branch. -/
theorem entry_url_fallback_exclusive (h : List Message) (e : Entry)
    (he : e ∈ collect_and_upload_attachments h) :
    ¬ (e.url.isSome = true ∧ e.fallback = true) := by
  rcases mem_collect he with ⟨m, _, a, _, rfl⟩
  exact processAttachment_exclusive a

theorem entry_url_fallback_exclusive_witness :
    (⟨"a", some "ha", false⟩ : Entry) ∈ collect_and_upload_attachments histPair
    ∧ ¬ ((⟨"a", some "ha", false⟩ : Entry).url.isSome = true
          ∧ (⟨"a", some "ha", false⟩ : Entry).fallback = true) :=
  ⟨by decide, entry_url_fallback_exclusive histPair ⟨"a", some "ha", false⟩ (by decide)⟩

end Watchtower
